import Mathlib

/-!
Verification of the federated-learning server orchestration code
(`src/fl_server.py` of federated-learning-autoencoder-anomaly-detection).

The Python functions are shallowly embedded as executable Lean definitions:
Python ints become `ℤ` (or `ℕ` for example counts), Python floats become `ℚ`,
dictionaries become association lists, and fallible code returns `Except`.
-/

namespace FLServer

/-- Command-line arguments of `src/fl_server.py` (the `argparse` block,
lines 18-62).  Integer-typed arguments are modelled as `ℤ`, the
`store_true` flag `pin_memory` as `Bool`, string arguments as `String`. -/
structure Args where
  server_address : String
  rounds : ℤ
  min_sample_size : ℤ
  min_num_clients : ℤ
  model : String
  dataset : String
  num_workers : ℤ
  pin_memory : Bool
deriving DecidableEq, Repr

/-- Python `str` on a `bool`: `str(True) = "True"`, `str(False) = "False"`. -/
def pyStrBool (b : Bool) : String :=
  if b then "True" else "False"

/-- Embeds `evaluate_config` (src/fl_server.py lines 64-71):
`val_steps = 5 if rnd < 4 else 10; return {"val_steps": val_steps}`. -/
def evaluate_config (rnd : ℤ) : List (String × ℤ) :=
  [("val_steps", if rnd < 4 then 5 else 10)]

/-- Embeds `fit_config` (src/fl_server.py lines 127-137): a dictionary of
six string-valued options, in the order the Python source lists them.
Python `str(rnd)` is modelled as `toString` on `ℤ` and `str(args.pin_memory)`
as `pyStrBool`. -/
def fit_config (args : Args) (rnd : ℤ) : List (String × String) :=
  [ ("epoch_global", toString rnd)
  , ("epochs", toString (5 : ℤ))
  , ("num_workers", toString args.num_workers)
  , ("pin_memory", pyStrBool args.pin_memory)
  , ("model", args.model)
  , ("dataset", args.dataset) ]

/-- Failure of the startup assertion in `main`
(src/fl_server.py lines 85-87): Python raises `AssertionError` when
`args.min_sample_size <= args.min_num_clients` does not hold. -/
inductive StartupError where
  | assertionError
deriving DecidableEq, Repr

/-- Outcome of `main` (src/fl_server.py lines 81-124): either the startup
assertion fails before anything else happens, or the server is started with
`num_rounds = args.rounds` (everything past the assertion — logging, data
loading, strategy construction, `fl.server.start_server` — is external and
collapsed into `serverRun`). -/
inductive MainOutcome where
  | startupFailure (e : StartupError)
  | serverRun (num_rounds : ℤ)
deriving DecidableEq, Repr

/-- Embeds the control flow of `main` that decides whether any round is
run: the assertion `args.min_sample_size <= args.min_num_clients` is the
first statement after the initial `print`, so on failure the server is
never constructed and no round runs. -/
def main (args : Args) : MainOutcome :=
  if args.min_sample_size ≤ args.min_num_clients then
    MainOutcome.serverRun args.rounds
  else
    MainOutcome.startupFailure StartupError.assertionError

/-- C1: for round indices 1, 2, 3 `evaluate_config` returns
`{"val_steps": 5}`, and for every round index `r ≥ 4` it returns
`{"val_steps": 10}`. -/
theorem evaluate_config_schedule (r : ℤ) :
    ((r = 1 ∨ r = 2 ∨ r = 3) → evaluate_config r = [("val_steps", 5)]) ∧
    (4 ≤ r → evaluate_config r = [("val_steps", 10)]) := by
  constructor
  · rintro (rfl | rfl | rfl) <;> rfl
  · intro h
    simp [evaluate_config, if_neg (not_lt.mpr h)]

/-- Witness for C1: the spec scenario, round 2 dispatches `val_steps = 5`
and round 5 dispatches `val_steps = 10`. -/
theorem evaluate_config_schedule_witness :
    evaluate_config 2 = [("val_steps", 5)] ∧
    evaluate_config 5 = [("val_steps", 10)] :=
  ⟨(evaluate_config_schedule 2).1 (Or.inr (Or.inl rfl)),
   (evaluate_config_schedule 5).2 (by norm_num)⟩

/-- C9: for every integer round index strictly below 4 — including 0 and
negative indices outside the 1-based round range — `evaluate_config`
returns `{"val_steps": 5}`; the schedule is total on `ℤ`. -/
theorem evaluate_config_below_four (r : ℤ) (h : r < 4) :
    evaluate_config r = [("val_steps", 5)] := by
  simp [evaluate_config, if_pos h]

/-- Witness for C9: round indices 0 and -3. -/
theorem evaluate_config_below_four_witness :
    evaluate_config 0 = [("val_steps", 5)] ∧
    evaluate_config (-3) = [("val_steps", 5)] :=
  ⟨evaluate_config_below_four 0 (by norm_num),
   evaluate_config_below_four (-3) (by norm_num)⟩

/-- C6: for every round index `r`, `fit_config` returns a mapping whose
keys are exactly the six recognized options, in which `epoch_global` is the
stringified current round index, `epochs` is the constant local step count
5, `num_workers` and `pin_memory` echo the loader hints, and `model` and
`dataset` echo the identifiers from the run arguments. -/
theorem fit_config_spec (args : Args) (r : ℤ) :
    (fit_config args r).map Prod.fst =
      ["epoch_global", "epochs", "num_workers", "pin_memory", "model", "dataset"] ∧
    List.lookup "epoch_global" (fit_config args r) = some (toString r) ∧
    List.lookup "epochs" (fit_config args r) = some "5" ∧
    List.lookup "num_workers" (fit_config args r) = some (toString args.num_workers) ∧
    List.lookup "pin_memory" (fit_config args r) = some (pyStrBool args.pin_memory) ∧
    List.lookup "model" (fit_config args r) = some args.model ∧
    List.lookup "dataset" (fit_config args r) = some args.dataset := by
  exact ⟨rfl, rfl, rfl, rfl, rfl, rfl, rfl⟩

/-- C8: when the configured `min_sample_size` exceeds `min_num_clients`,
`main` fails at the startup assertion before the server is constructed, so
no round is ever run. -/
theorem main_fails_fast (args : Args)
    (h : args.min_num_clients < args.min_sample_size) :
    main args = MainOutcome.startupFailure StartupError.assertionError := by
  simp [main, if_neg (not_le.mpr h)]

/-- Witness for C8: the spec scenario `min_sample_size = 3`,
`min_num_clients = 2` fails fast. -/
theorem main_fails_fast_witness :
    main { server_address := "0.0.0.0:8080", rounds := 5, min_sample_size := 3,
           min_num_clients := 2, model := "AE", dataset := "ENERGY",
           num_workers := 10, pin_memory := false } =
      MainOutcome.startupFailure StartupError.assertionError :=
  main_fails_fast _ (by norm_num)

/-- A flwr `Metrics` dictionary, restricted to the numeric values the
server reads: an association list from metric name to value, Python floats
modelled as `ℚ`. -/
abbrev Metrics := List (String × ℚ)

/-- Errors `weighted_average` can raise.  The Python code can raise
`KeyError` (the `m["accuracy"]` access on line 76) and `ZeroDivisionError`
(the division on line 79); `DivideByZero` is the spec name for the latter.
`emptyRoundResult` and `noMetricData` are error names from the spec
taxonomy with no corresponding path in the code; they are included only so
that the code behaviour can be compared against them. -/
inductive AggError where
  | divideByZero
  | keyError (key : String)
  | emptyRoundResult
  | noMetricData
deriving DecidableEq, Repr

/-- Embeds the list comprehension
`accuracies = [num_examples * m["accuracy"] for num_examples, m in metrics]`
(src/fl_server.py line 76): each term multiplies the example count by the
entry's `accuracy` value; a missing key raises `KeyError`. -/
def accuracyTerms : List (ℕ × Metrics) → Except AggError (List ℚ)
  | [] => Except.ok []
  | p :: rest =>
    match List.lookup "accuracy" p.2 with
    | some a => (accuracyTerms rest).map (fun l => ((p.1 : ℚ) * a) :: l)
    | none => Except.error (AggError.keyError "accuracy")

/-- Embeds `weighted_average` (src/fl_server.py lines 73-79): build the
weighted accuracy list and the example-count list, then return
`{"accuracy": sum(accuracies) / sum(examples)}`; Python raises
`ZeroDivisionError` when `sum(examples)` is 0, after the comprehension has
been evaluated. -/
def weighted_average (metrics : List (ℕ × Metrics)) : Except AggError Metrics :=
  match accuracyTerms metrics with
  | Except.error e => Except.error e
  | Except.ok accuracies =>
    if (metrics.map Prod.fst).sum = 0 then
      Except.error AggError.divideByZero
    else
      Except.ok [("accuracy", accuracies.sum / ((metrics.map Prod.fst).sum : ℚ))]

lemma accuracyTerms_of_all (l : List (ℕ × Metrics))
    (h : ∀ p ∈ l, (List.lookup "accuracy" p.2).isSome = true) :
    accuracyTerms l =
      Except.ok (l.map fun p => (p.1 : ℚ) * ((List.lookup "accuracy" p.2).getD 0)) := by
  induction l with
  | nil => rfl
  | cons p rest ih =>
    obtain ⟨a, ha⟩ := Option.isSome_iff_exists.mp (h p (List.mem_cons_self p rest))
    have ihr := ih (fun q hq => h q (List.mem_cons_of_mem p hq))
    simp [accuracyTerms, ha, ihr, Except.map]

lemma accuracyTerms_of_missing (l : List (ℕ × Metrics))
    (h : ∃ p ∈ l, List.lookup "accuracy" p.2 = none) :
    accuracyTerms l = Except.error (AggError.keyError "accuracy") := by
  induction l with
  | nil => simp at h
  | cons p rest ih =>
    cases hp : List.lookup "accuracy" p.2 with
    | none => simp [accuracyTerms, hp]
    | some a =>
      have hr : ∃ q ∈ rest, List.lookup "accuracy" q.2 = none := by
        rcases h with ⟨q, hq, hqn⟩
        rcases List.mem_cons.mp hq with rfl | hq'
        · rw [hp] at hqn; cases hqn
        · exact ⟨q, hq', hqn⟩
      simp [accuracyTerms, hp, ih hr, Except.map]

/-- C2: for every non-empty collection of client results with positive
total example count, in which every client reports an `accuracy`, the
aggregated accuracy is the example-count-weighted average
`(Σ nᵢ·accᵢ) / (Σ nᵢ)`. -/
theorem weighted_average_formula (l : List (ℕ × ℚ)) (hne : l ≠ [])
    (hpos : 0 < (l.map Prod.fst).sum) :
    weighted_average (l.map fun p => (p.1, [("accuracy", p.2)])) =
      Except.ok [("accuracy",
        (l.map fun p => (p.1 : ℚ) * p.2).sum / ((l.map Prod.fst).sum : ℚ))] := by
  have hall : ∀ p ∈ (l.map fun p => (p.1, [("accuracy", p.2)])),
      (List.lookup "accuracy" p.2).isSome = true := by
    intro p hp
    obtain ⟨q, hq, rfl⟩ := List.mem_map.mp hp
    rfl
  have h1 : ((l.map fun p => (p.1, [("accuracy", p.2)])).map Prod.fst) =
      l.map Prod.fst := by
    rw [List.map_map]; rfl
  have h2 : ((l.map fun p => (p.1, [("accuracy", p.2)])).map
        fun p => (p.1 : ℚ) * ((List.lookup "accuracy" p.2).getD 0)) =
      l.map fun p => (p.1 : ℚ) * p.2 := by
    rw [List.map_map]; rfl
  simp only [weighted_average, accuracyTerms_of_all _ hall, h1, h2,
    if_neg hpos.ne']

/-- Witness for C2: the spec scenario `(100, 0.8)`, `(200, 0.9)`,
`(100, 0.7)` aggregates to accuracy `0.825`. -/
theorem weighted_average_formula_witness :
    weighted_average
        [(100, [("accuracy", (8 : ℚ)/10)]), (200, [("accuracy", (9 : ℚ)/10)]),
         (100, [("accuracy", (7 : ℚ)/10)])] =
      Except.ok [("accuracy", (825 : ℚ)/1000)] := by
  refine Eq.trans
    (weighted_average_formula [(100, (8 : ℚ)/10), (200, (9 : ℚ)/10), (100, (7 : ℚ)/10)]
      (by decide) (by decide)) ?_
  norm_num

/-- C7: `weighted_average` is order-independent — permuting the input
collection of client results yields the same aggregated metrics, in the
success case and in both failure cases. -/
theorem weighted_average_perm (l₁ l₂ : List (ℕ × Metrics)) (h : l₁.Perm l₂) :
    weighted_average l₁ = weighted_average l₂ := by
  have hsum : (l₁.map Prod.fst).sum = (l₂.map Prod.fst).sum :=
    (h.map Prod.fst).sum_eq
  by_cases hall : ∀ p ∈ l₁, (List.lookup "accuracy" p.2).isSome = true
  · have hall₂ : ∀ p ∈ l₂, (List.lookup "accuracy" p.2).isSome = true :=
      fun p hp => hall p (h.mem_iff.mpr hp)
    have hterm :
        (l₁.map fun p => (p.1 : ℚ) * ((List.lookup "accuracy" p.2).getD 0)).sum =
        (l₂.map fun p => (p.1 : ℚ) * ((List.lookup "accuracy" p.2).getD 0)).sum :=
      (h.map _).sum_eq
    simp only [weighted_average, accuracyTerms_of_all l₁ hall,
      accuracyTerms_of_all l₂ hall₂, hsum, hterm]
  · push_neg at hall
    obtain ⟨p, hp, hnp⟩ := hall
    have hmiss₁ : ∃ q ∈ l₁, List.lookup "accuracy" q.2 = none :=
      ⟨p, hp, Option.not_isSome_iff_eq_none.mp (by simpa using hnp)⟩
    have hmiss₂ : ∃ q ∈ l₂, List.lookup "accuracy" q.2 = none := by
      obtain ⟨q, hq, hqn⟩ := hmiss₁
      exact ⟨q, h.mem_iff.mp hq, hqn⟩
    simp only [weighted_average, accuracyTerms_of_missing l₁ hmiss₁,
      accuracyTerms_of_missing l₂ hmiss₂]

/-- Witness for C7: swapping two client results leaves the aggregate
unchanged. -/
theorem weighted_average_perm_witness :
    weighted_average [(1, [("accuracy", (1 : ℚ))]), (2, [("accuracy", (0 : ℚ))])] =
      weighted_average [(2, [("accuracy", (0 : ℚ))]), (1, [("accuracy", (1 : ℚ))])] :=
  weighted_average_perm _ _ (List.Perm.swap _ _ _)

/-- C3 counterexample: aggregating an empty collection fails with the
divide-by-zero error (Python `ZeroDivisionError`, the spec taxonomy's
`DivideByZero`), not with a distinct `EmptyRoundResult` error. -/
theorem weighted_average_empty_counterexample :
    weighted_average [] = Except.error AggError.divideByZero ∧
    weighted_average [] ≠ Except.error AggError.emptyRoundResult := by
  constructor
  · rfl
  · rw [show weighted_average ([] : List (ℕ × Metrics)) =
        Except.error AggError.divideByZero from rfl]
    simp

/-- C3 amended: aggregating any collection of metrics that all carry the
`accuracy` key but whose total example count is 0 — the empty collection
included — fails with the divide-by-zero error; no value is silently
returned. -/
theorem weighted_average_zero_total (l : List (ℕ × Metrics))
    (hall : ∀ p ∈ l, (List.lookup "accuracy" p.2).isSome = true)
    (hzero : (l.map Prod.fst).sum = 0) :
    weighted_average l = Except.error AggError.divideByZero := by
  simp [weighted_average, accuracyTerms_of_all l hall, hzero]

/-- Witness for the amended C3: the empty collection and a zero-count
client both hit the divide-by-zero failure. -/
theorem weighted_average_zero_total_witness :
    weighted_average [] = Except.error AggError.divideByZero ∧
    weighted_average [(0, [("accuracy", (1 : ℚ))])] =
      Except.error AggError.divideByZero :=
  ⟨weighted_average_zero_total [] (by simp) rfl,
   weighted_average_zero_total [(0, [("accuracy", (1 : ℚ))])] (by decide) rfl⟩

/-- C4 counterexample: with clients `(100, {accuracy: 0.8})` and
`(200, {})`, aggregation raises `KeyError` instead of excluding the entry
that lacks the key, and a collection in which the key is missing from
every participant raises `KeyError` as well, not `NoMetricData`. -/
theorem weighted_average_missing_key_counterexample :
    weighted_average [(100, [("accuracy", (8 : ℚ)/10)]), (200, [])] =
      Except.error (AggError.keyError "accuracy") ∧
    weighted_average [(100, [("accuracy", (8 : ℚ)/10)]), (200, [])] ≠
      Except.ok [("accuracy", (8 : ℚ)/10)] ∧
    weighted_average [(100, ([] : Metrics))] ≠
      Except.error AggError.noMetricData := by
  refine ⟨rfl, ?_, ?_⟩
  · rw [show weighted_average [(100, [("accuracy", (8 : ℚ)/10)]), (200, [])] =
        Except.error (AggError.keyError "accuracy") from rfl]
    simp
  · rw [show weighted_average [(100, ([] : Metrics))] =
        Except.error (AggError.keyError "accuracy") from rfl]
    simp

/-- C4 amended: whenever at least one entry lacks the `accuracy` key —
whether or not other entries carry it — `weighted_average` fails with
`KeyError` on that key; entries are never excluded and `NoMetricData` is
never produced. -/
theorem weighted_average_missing_key (l : List (ℕ × Metrics))
    (h : ∃ p ∈ l, List.lookup "accuracy" p.2 = none) :
    weighted_average l = Except.error (AggError.keyError "accuracy") := by
  simp [weighted_average, accuracyTerms_of_missing l h]

/-- Witness for the amended C4: a mixed collection fails with `KeyError`. -/
theorem weighted_average_missing_key_witness :
    weighted_average [(100, [("accuracy", (8 : ℚ)/10)]), (200, [])] =
      Except.error (AggError.keyError "accuracy") :=
  weighted_average_missing_key _ ⟨(200, []), by simp, rfl⟩

/-- Modelled from the spec: the scoring collaborator `pot_eval` (imported
from `codes.evaluations.eval_utils`, which is not part of this slice)
returns a confusion outcome; per spec §6 it is a black box returning the
counts `{TP, TN, FP, FN}`, modelled as natural numbers. -/
structure ConfusionCounts where
  TP : ℕ
  TN : ℕ
  FP : ℕ
  FN : ℕ
deriving DecidableEq, Repr

/-- Raised when the accuracy denominator `TP+TN+FP+FN` is zero: the
Python division raises `ZeroDivisionError`; the spec names this condition
`DegenerateEvaluation`. -/
inductive EvalError where
  | degenerateEvaluation
deriving DecidableEq, Repr

/-- Embeds the accuracy computation of `evaluate`
(src/fl_server.py line 171):
`accuracy = (result['TP'] + result['TN']) / (result['TP'] + result['TN'] + result['FP'] + result['FN'])`,
failing when the denominator is zero. -/
def confusion_accuracy (r : ConfusionCounts) : Except EvalError ℚ :=
  if r.TP + r.TN + r.FP + r.FN = 0 then
    Except.error EvalError.degenerateEvaluation
  else
    Except.ok (((r.TP : ℚ) + r.TN) / ((r.TP : ℚ) + r.TN + r.FP + r.FN))

/-- C5: centralized evaluation computes accuracy as
`(TP+TN) / (TP+TN+FP+FN)` from the scorer's confusion counts, and fails
with the degenerate-evaluation error when the denominator is zero. -/
theorem evaluate_accuracy_spec (r : ConfusionCounts) :
    (r.TP + r.TN + r.FP + r.FN ≠ 0 →
      confusion_accuracy r =
        Except.ok (((r.TP : ℚ) + r.TN) / ((r.TP : ℚ) + r.TN + r.FP + r.FN))) ∧
    (r.TP + r.TN + r.FP + r.FN = 0 →
      confusion_accuracy r = Except.error EvalError.degenerateEvaluation) := by
  constructor
  · intro h; simp [confusion_accuracy, h]
  · intro h; simp [confusion_accuracy, h]

/-- Witness for C5: `TP=40, TN=50, FP=5, FN=5` gives accuracy `0.9`, and
all-zero counts give the degenerate-evaluation failure. -/
theorem evaluate_accuracy_spec_witness :
    confusion_accuracy ⟨40, 50, 5, 5⟩ = Except.ok ((9 : ℚ)/10) ∧
    confusion_accuracy ⟨0, 0, 0, 0⟩ = Except.error EvalError.degenerateEvaluation := by
  constructor
  · rw [(evaluate_accuracy_spec ⟨40, 50, 5, 5⟩).1 (by decide)]
    norm_num
  · exact (evaluate_accuracy_spec ⟨0, 0, 0, 0⟩).2 rfl

end FLServer
